import Mathlib

/-!
Verification of the SafeStakeOperator mempool core and utility code.

Shallow embedding of:
- src/hotstuff/mempool/src/mempool.rs (message types, Mempool::spawn,
  TxReceiverHandler::dispatch, MempoolReceiverHandler::dispatch);
- src/src/utils/error.rs (require);
- src/src/validation/block_service.rs (From<Errors<BlockError>> for BlockError).

Byte strings are modelled as List Nat. Channel sends and writer sends are
modelled as events appended to an ordered trace; the dispatch handlers return
that trace together with their Result value (Except String Unit, where
Except.error models an Err return). The outcome of bincode deserialization
is an input of the embedded dispatch (the deserializer itself is an external
crate), and the success of the ACK write on the back-channel is an input
whose value the source discards with `let _ = ...`.
-/

/-- Transaction bytes (crate batch_maker: `pub type Transaction = Vec<u8>`). -/
abbrev Transaction := List Nat

/-- A batch is a list of transactions (crate batch_maker: `pub type Batch = Vec<Transaction>`). -/
abbrev Batch := List Transaction

/-- A content digest (crypto crate), modelled as its bytes. -/
abbrev Digest := List Nat

/-- A public key (crypto crate), modelled as its bytes. -/
abbrev PublicKey := List Nat

/-- The consensus round number: `pub type Round = u64`. -/
abbrev Round := Fin (2 ^ 64)

/-- The message exchanged between the nodes' mempools (mempool.rs lines 32-36). -/
inductive MempoolMessage where
  | Batch (b : Batch)
  | BatchRequest (missing : List Digest) (origin : PublicKey)
deriving DecidableEq, Repr

/-- The messages sent by the consensus to the mempool (mempool.rs lines 39-45). -/
inductive ConsensusMempoolMessage where
  | Synchronize (missing : List Digest) (target : PublicKey)
  | Cleanup (round : Round)
deriving DecidableEq, Repr

/-- A network address; only the fields the embedded code touches. -/
structure Address where
  ip : String
deriving DecidableEq, Repr

/-- The committee, restricted to the lookup used by Mempool::spawn:
`Committee::mempool_address(&PublicKey) -> Option<Address>`. -/
structure Committee where
  mempool_address : PublicKey → Option Address

/-- Handler for client transactions (mempool.rs lines 207-210); its field is
the sender side of the batch-maker channel, identified here by the channel
name built in handle_clients_transactions. -/
structure TxReceiverHandler where
  tx_batch_maker : String
deriving DecidableEq, Repr

/-- Handler for peer mempool messages (mempool.rs lines 228-232); fields are
the sender sides of the helper and processor channels, identified by the
channel names built in handle_mempool_messages. -/
structure MempoolReceiverHandler where
  tx_helper : String
  tx_processor : String
deriving DecidableEq, Repr

/-- Events produced by TxReceiverHandler::dispatch, in program order. -/
inductive TxEvent where
  | toBatchMaker (tx : Transaction)
  | writerWrite (payload : String)
deriving DecidableEq, Repr

/-- TxReceiverHandler::dispatch (mempool.rs lines 214-224): the inbound
message bytes are sent, unchanged, as one Transaction to the batch maker
(`self.tx_batch_maker.send(message.to_vec())`); the writer back-channel is
never written (`_writer` is unused); the handler returns Ok(()).
A closed channel`s panic via .expect aborts the process and is outside the
embedded return value; channel sends are modelled as succeeding. -/
def TxReceiverHandler.dispatch (_self : TxReceiverHandler) (message : List Nat) :
    List TxEvent × Except String Unit :=
  ([TxEvent.toBatchMaker message], Except.ok ())

/-- Events produced by MempoolReceiverHandler::dispatch, in program order. -/
inductive MemEvent where
  | ackWrite (payload : String)
  | toProcessor (bytes : List Nat)
  | toHelper (missing : List Digest) (requestor : PublicKey)
  | warnLog (msg : String)
deriving DecidableEq, Repr

/-- MempoolReceiverHandler::dispatch (mempool.rs lines 236-255).
First side effect: `let _ = writer.send(Bytes::from("Ack")).await` - the ACK
is written unconditionally and its result (input ackOk) is discarded.
Then the frame is deserialized (outcome is input parsed):
Ok(Batch(..)) forwards the original bytes `serialized.to_vec()` to the
processor channel; Ok(BatchRequest(missing, requestor)) forwards the pair to
the helper channel; Err(e) logs a warning. The handler returns Ok(()) in
every case. -/
def MempoolReceiverHandler.dispatch (_self : MempoolReceiverHandler)
    (serialized : List Nat) (parsed : Except String MempoolMessage)
    (_ackOk : Bool) : List MemEvent × Except String Unit :=
  let ack := MemEvent.ackWrite "Ack"
  match parsed with
  | Except.ok (MempoolMessage.Batch _) =>
      ([ack, MemEvent.toProcessor serialized], Except.ok ())
  | Except.ok (MempoolMessage.BatchRequest missing requestor) =>
      ([ack, MemEvent.toHelper missing requestor], Except.ok ())
  | Except.error e =>
      ([ack, MemEvent.warnLog ("Serialization error: " ++ e)], Except.ok ())

/-- Functional model of the shared concurrent HashMap<u64, handler>. -/
def mapInsert {α : Type} (m : Nat → Option α) (k : Nat) (v : α) : Nat → Option α :=
  fun k2 => if k2 = k then some v else m k2

/-- Removal from the shared handler map. -/
def mapRemove {α : Type} (m : Nat → Option α) (k : Nat) : Nat → Option α :=
  fun k2 => if k2 = k then none else m k2

/-- The two shared handler maps passed to Mempool::spawn. -/
structure HandlerMaps where
  txHandlerMap : Nat → Option TxReceiverHandler
  mempoolHandlerMap : Nat → Option MempoolReceiverHandler

/-- Events recorded while Mempool::spawn runs its body, in program order. -/
inductive SpawnEvent where
  | spawnedSynchronizer
  | insertedTxHandler (vid : Nat)
  | spawnedBatchMaker
  | spawnedQuorumWaiter
  | spawnedTxProcessor
  | insertedMempoolHandler (vid : Nat)
  | spawnedHelper
  | spawnedMempoolProcessor
  | loggedBoot (ip : String)
deriving DecidableEq, Repr

/-- How Mempool::spawn terminates: normal return, or a panic of the spawning
task via .expect (the sub-tasks spawned before the panic keep running). -/
inductive SpawnOutcome where
  | ok
  | fatal (msg : String)
deriving DecidableEq, Repr

/-- Mempool::handle_clients_transactions (mempool.rs lines 125-170): creates
the three channels, inserts a TxReceiverHandler into the shared map under
this validator_id, then spawns BatchMaker, QuorumWaiter and Processor. -/
def Mempool.handle_clients_transactions (vid : Nat) (maps : HandlerMaps) :
    HandlerMaps × List SpawnEvent :=
  let handler : TxReceiverHandler :=
    { tx_batch_maker := toString vid ++ "-mempool-tx-batch-maker" }
  let maps2 : HandlerMaps :=
    { maps with txHandlerMap := mapInsert maps.txHandlerMap vid handler }
  (maps2,
   [SpawnEvent.insertedTxHandler vid, SpawnEvent.spawnedBatchMaker,
    SpawnEvent.spawnedQuorumWaiter, SpawnEvent.spawnedTxProcessor])

/-- Mempool::handle_mempool_messages (mempool.rs lines 173-203): creates the
helper and processor channels, inserts a MempoolReceiverHandler into the
shared map under this validator_id, then spawns Helper and Processor. -/
def Mempool.handle_mempool_messages (vid : Nat) (maps : HandlerMaps) :
    HandlerMaps × List SpawnEvent :=
  let handler : MempoolReceiverHandler :=
    { tx_helper := toString vid ++ "-mempool-helper",
      tx_processor := toString vid ++ "-mempool-processor" }
  let maps2 : HandlerMaps :=
    { maps with mempoolHandlerMap := mapInsert maps.mempoolHandlerMap vid handler }
  (maps2,
   [SpawnEvent.insertedMempoolHandler vid, SpawnEvent.spawnedHelper,
    SpawnEvent.spawnedMempoolProcessor])

/-- Mempool::spawn (mempool.rs lines 65-105): spawns the Synchronizer
(handle_consensus_messages), then handle_clients_transactions, then
handle_mempool_messages, and finally logs the boot message through
`committee.mempool_address(&name).expect("Our public key is not in the
committee").ip()` - panicking when the lookup yields None. -/
def Mempool.spawn (name : PublicKey) (committee : Committee) (vid : Nat)
    (maps : HandlerMaps) : HandlerMaps × List SpawnEvent × SpawnOutcome :=
  let r1 := Mempool.handle_clients_transactions vid maps
  let r2 := Mempool.handle_mempool_messages vid r1.1
  let events := SpawnEvent.spawnedSynchronizer :: (r1.2 ++ r2.2)
  match committee.mempool_address name with
  | none => (r2.1, events, SpawnOutcome.fatal "Our public key is not in the committee")
  | some addr => (r2.1, events ++ [SpawnEvent.loggedBoot addr.ip], SpawnOutcome.ok)

/-- Modelled from the spec: "the receive layer holds a concurrent mapping
validator_id → handler into which the mempool inserts its handler at startup
and removes it on shutdown." The removal code is not among the provided
sources (mempool.rs only performs the insertions); it is modelled as removing
this validator's key from both shared maps. -/
def Mempool.shutdown (vid : Nat) (maps : HandlerMaps) : HandlerMaps :=
  { txHandlerMap := mapRemove maps.txHandlerMap vid,
    mempoolHandlerMap := mapRemove maps.mempoolHandlerMap vid }

/-- require (src/src/utils/error.rs lines 2-6): panics with msg when status
is false, returns normally otherwise. The panic is modelled as Except.error. -/
def require (status : Bool) (msg : String) : Except String Unit :=
  if !status then Except.error msg else Except.ok ()

/-- BlockError (block_service.rs lines 21-27). -/
inductive BlockError where
  | Recoverable (s : String)
  | Irrecoverable (s : String)
  | RandaoNotLeader
  | SignBlockNotLeader
deriving DecidableEq, Repr

/-- Error type of the beacon-node fallback layer. Its definition lives in
beacon_node_fallback.rs, which is not among the provided sources; only the
shape block_service.rs matches on matters here: a RequestFailed variant
carrying the inner error, and at least one other variant. -/
inductive FallbackError (E : Type) where
  | Unavailable
  | RequestFailed (e : E)
deriving DecidableEq, Repr

/-- Errors<E> of the fallback layer: a collection of (beacon node id, error)
pairs; block_service.rs iterates `e.0.iter()` over them. -/
structure Errors (E : Type) where
  pairs : List (String × FallbackError E)
deriving DecidableEq, Repr

/-- Stands for `e.to_string()` on Errors<BlockError>. The Display
implementation lives outside the provided sources; the claims under proof do
not depend on the rendered text, only on the constructor chosen around it. -/
def Errors.render (e : Errors BlockError) : String :=
  "Some endpoints failed: " ++ toString e.pairs.length

/-- The predicate of the matches! expression in block_service.rs lines 31-36:
does this (node, error) pair hold a RequestFailed wrapping Irrecoverable? -/
def isIrrecoverableFallback (p : String × FallbackError BlockError) : Bool :=
  match p.2 with
  | FallbackError.RequestFailed (BlockError.Irrecoverable _) => true
  | _ => false

/-- From<Errors<BlockError>> for BlockError (block_service.rs lines 29-42):
Irrecoverable(e.to_string()) when any contained error matches
FallbackError::RequestFailed(BlockError::Irrecoverable(_)), otherwise
Recoverable(e.to_string()). -/
def BlockError.fromErrors (e : Errors BlockError) : BlockError :=
  if e.pairs.any isIrrecoverableFallback
  then BlockError.Irrecoverable e.render
  else BlockError.Recoverable e.render

lemma isIrrecoverableFallback_eq_true (p : String × FallbackError BlockError) :
    isIrrecoverableFallback p = true ↔
      ∃ msg, p.2 = FallbackError.RequestFailed (BlockError.Irrecoverable msg) := by
  obtain ⟨nodeId, err⟩ := p
  cases err with
  | Unavailable => simp [isIrrecoverableFallback]
  | RequestFailed inner => cases inner <;> simp [isIrrecoverableFallback]

lemma Mempool.spawn_fst (name : PublicKey) (committee : Committee) (vid : Nat)
    (maps : HandlerMaps) :
    (Mempool.spawn name committee vid maps).1 =
      { txHandlerMap := mapInsert maps.txHandlerMap vid
          { tx_batch_maker := toString vid ++ "-mempool-tx-batch-maker" },
        mempoolHandlerMap := mapInsert maps.mempoolHandlerMap vid
          { tx_helper := toString vid ++ "-mempool-helper",
            tx_processor := toString vid ++ "-mempool-processor" } } := by
  cases haddr : committee.mempool_address name <;>
    simp [Mempool.spawn, Mempool.handle_clients_transactions,
          Mempool.handle_mempool_messages, haddr]

/-- Claim C2: for every inbound mempool-peer frame, the handler's first side
effect is writing the literal bytes "Ack" back to the peer: the event trace
starts with the ACK write for every deserialization outcome - so it happens
before any deserialization-dependent effect and before any forwarding. -/
theorem mempool_dispatch_ack_first (h : MempoolReceiverHandler)
    (serialized : List Nat) (parsed : Except String MempoolMessage)
    (ackOk : Bool) :
    ∃ rest, (h.dispatch serialized parsed ackOk).1 =
      MemEvent.ackWrite "Ack" :: rest := by
  cases parsed with
  | ok m => cases m <;> exact ⟨_, rfl⟩
  | error e => exact ⟨_, rfl⟩

/-- Claim C1, counterexample: at a concrete frame whose deserialization
fails, the handler does send the ACK back to the peer (it was written before
deserialization), refuting "does not send an ACK back to the peer". -/
theorem mempool_dispatch_malformed_acked :
    MemEvent.ackWrite "Ack" ∈
      (MempoolReceiverHandler.dispatch
        { tx_helper := "h", tx_processor := "p" }
        [0] (Except.error "invalid tag") true).1 := by decide

/-- Claim C1, amended: for every inbound mempool-peer frame that fails to
deserialize, the handler logs a warning and drops the frame (nothing is
forwarded to the Processor or Helper channels) - but the ACK has already been
sent to the peer, since it is written unconditionally before
deserialization. -/
theorem mempool_dispatch_malformed_logged_dropped (h : MempoolReceiverHandler)
    (serialized : List Nat) (e : String) (ackOk : Bool) :
    h.dispatch serialized (Except.error e) ackOk =
      ([MemEvent.ackWrite "Ack",
        MemEvent.warnLog ("Serialization error: " ++ e)],
       Except.ok ()) := rfl

/-- Claim C3: a frame parsing to Batch forwards the original unparsed frame
bytes to the Processor channel (the forwarded value is the serialized input,
for every parsed batch payload b, hence never a re-serialization of b); a
frame parsing to BatchRequest(missing, requestor) forwards the pair
(missing, requestor) to the Helper channel. -/
theorem mempool_dispatch_forwarding (h : MempoolReceiverHandler)
    (serialized : List Nat) (ackOk : Bool) :
    (∀ b : Batch,
      h.dispatch serialized (Except.ok (MempoolMessage.Batch b)) ackOk =
        ([MemEvent.ackWrite "Ack", MemEvent.toProcessor serialized],
         Except.ok ())) ∧
    (∀ (missing : List Digest) (requestor : PublicKey),
      h.dispatch serialized
          (Except.ok (MempoolMessage.BatchRequest missing requestor)) ackOk =
        ([MemEvent.ackWrite "Ack", MemEvent.toHelper missing requestor],
         Except.ok ())) :=
  ⟨fun _ => rfl, fun _ _ => rfl⟩

/-- Claim C8: the mempool receive handler returns Ok(()) on every frame - a
deserialization failure never surfaces as an Err result, and the result of
the ACK write is discarded, so the return value does not depend on it. -/
theorem mempool_dispatch_always_ok (h : MempoolReceiverHandler)
    (serialized : List Nat) (parsed : Except String MempoolMessage)
    (ackOk : Bool) :
    (h.dispatch serialized parsed ackOk).2 = Except.ok () ∧
    h.dispatch serialized parsed ackOk = h.dispatch serialized parsed true := by
  cases parsed with
  | ok m => cases m <;> exact ⟨rfl, rfl⟩
  | error e => exact ⟨rfl, rfl⟩

/-- Claim C4: the transaction receive handler forwards the inbound message
bytes unchanged as one opaque Transaction to the BatchMaker channel, performs
no other action (no validation), writes nothing to the peer back-channel, and
returns Ok(()). -/
theorem tx_dispatch_forwards_unchanged (h : TxReceiverHandler)
    (message : List Nat) :
    h.dispatch message = ([TxEvent.toBatchMaker message], Except.ok ()) ∧
    ∀ payload, TxEvent.writerWrite payload ∉ (h.dispatch message).1 := by
  refine ⟨rfl, ?_⟩
  intro payload hmem
  simp [TxReceiverHandler.dispatch] at hmem

/-- Witness for tx_dispatch_forwards_unchanged at a concrete handler and
message. -/
theorem tx_dispatch_forwards_unchanged_witness :
    TxReceiverHandler.dispatch { tx_batch_maker := "c" } [1, 2] =
      ([TxEvent.toBatchMaker [1, 2]], Except.ok ()) :=
  (tx_dispatch_forwards_unchanged { tx_batch_maker := "c" } [1, 2]).1

/-- Claim C5: Mempool::spawn ends in a fatal panic exactly when the
committee has no mempool address for the mempool's own public key, and the
panic happens only after all sub-tasks have been spawned and both handlers
registered (the first eight events are the same in both cases); with an
address present, spawn returns normally. -/
theorem spawn_outcome_and_subtasks (name : PublicKey) (committee : Committee)
    (vid : Nat) (maps : HandlerMaps) :
    (Mempool.spawn name committee vid maps).2.2 =
      (match committee.mempool_address name with
       | none => SpawnOutcome.fatal "Our public key is not in the committee"
       | some _ => SpawnOutcome.ok) ∧
    (Mempool.spawn name committee vid maps).2.1.take 8 =
      [SpawnEvent.spawnedSynchronizer, SpawnEvent.insertedTxHandler vid,
       SpawnEvent.spawnedBatchMaker, SpawnEvent.spawnedQuorumWaiter,
       SpawnEvent.spawnedTxProcessor, SpawnEvent.insertedMempoolHandler vid,
       SpawnEvent.spawnedHelper, SpawnEvent.spawnedMempoolProcessor] := by
  cases haddr : committee.mempool_address name <;>
    simp [Mempool.spawn, Mempool.handle_clients_transactions,
          Mempool.handle_mempool_messages, haddr]

/-- Claim C6: spawn inserts exactly one transaction handler and one
mempool-message handler into the two shared maps, each under this
validator_id; the modelled shutdown removes both again; every other key of
either map is left unchanged by both spawn and shutdown. -/
theorem spawn_registers_shutdown_unregisters (name : PublicKey)
    (committee : Committee) (vid : Nat) (maps : HandlerMaps) :
    (Mempool.spawn name committee vid maps).1.txHandlerMap vid =
      some { tx_batch_maker := toString vid ++ "-mempool-tx-batch-maker" } ∧
    (Mempool.spawn name committee vid maps).1.mempoolHandlerMap vid =
      some { tx_helper := toString vid ++ "-mempool-helper",
             tx_processor := toString vid ++ "-mempool-processor" } ∧
    (Mempool.shutdown vid
        (Mempool.spawn name committee vid maps).1).txHandlerMap vid = none ∧
    (Mempool.shutdown vid
        (Mempool.spawn name committee vid maps).1).mempoolHandlerMap vid = none ∧
    ∀ k, k ≠ vid →
      (Mempool.spawn name committee vid maps).1.txHandlerMap k =
          maps.txHandlerMap k ∧
      (Mempool.spawn name committee vid maps).1.mempoolHandlerMap k =
          maps.mempoolHandlerMap k ∧
      (Mempool.shutdown vid
          (Mempool.spawn name committee vid maps).1).txHandlerMap k =
        (Mempool.spawn name committee vid maps).1.txHandlerMap k ∧
      (Mempool.shutdown vid
          (Mempool.spawn name committee vid maps).1).mempoolHandlerMap k =
        (Mempool.spawn name committee vid maps).1.mempoolHandlerMap k := by
  have hfst := Mempool.spawn_fst name committee vid maps
  rw [hfst]
  refine ⟨?_, ?_, ?_, ?_, ?_⟩
  · simp [mapInsert]
  · simp [mapInsert]
  · simp [Mempool.shutdown, mapRemove]
  · simp [Mempool.shutdown, mapRemove]
  · intro k hk
    refine ⟨?_, ?_, ?_, ?_⟩ <;>
      simp [Mempool.shutdown, mapInsert, mapRemove, hk]

/-- Witness for spawn_registers_shutdown_unregisters: validator id 7,
probe key 3, empty committee and empty maps. -/
theorem spawn_registers_shutdown_unregisters_witness :
    (3 : Nat) ≠ 7 ∧
    ((Mempool.spawn [] ⟨fun _ => none⟩ 7
        ⟨fun _ => none, fun _ => none⟩).1.txHandlerMap 3 = none ∧
     (Mempool.spawn [] ⟨fun _ => none⟩ 7
        ⟨fun _ => none, fun _ => none⟩).1.mempoolHandlerMap 3 = none ∧
     (Mempool.shutdown 7 (Mempool.spawn [] ⟨fun _ => none⟩ 7
        ⟨fun _ => none, fun _ => none⟩).1).txHandlerMap 3 =
       (Mempool.spawn [] ⟨fun _ => none⟩ 7
        ⟨fun _ => none, fun _ => none⟩).1.txHandlerMap 3 ∧
     (Mempool.shutdown 7 (Mempool.spawn [] ⟨fun _ => none⟩ 7
        ⟨fun _ => none, fun _ => none⟩).1).mempoolHandlerMap 3 =
       (Mempool.spawn [] ⟨fun _ => none⟩ 7
        ⟨fun _ => none, fun _ => none⟩).1.mempoolHandlerMap 3) :=
  ⟨by decide,
   (spawn_registers_shutdown_unregisters [] ⟨fun _ => none⟩ 7
      ⟨fun _ => none, fun _ => none⟩).2.2.2.2 3 (by decide)⟩

/-- Claim C7: MempoolMessage is a tagged union with exactly the two variants
Batch (a list of transaction byte strings) and BatchRequest (a list of
digests plus the requestor's public key); ConsensusMempoolMessage has exactly
the variants Synchronize(list of digests, target public key) and
Cleanup(Round); Round values fit in an unsigned 64-bit integer. -/
theorem mempool_message_shape :
    (∀ m : MempoolMessage,
      (∃ b, m = MempoolMessage.Batch b) ∨
      ∃ missing origin, m = MempoolMessage.BatchRequest missing origin) ∧
    (∀ b missing origin,
      MempoolMessage.Batch b ≠ MempoolMessage.BatchRequest missing origin) ∧
    (∀ c : ConsensusMempoolMessage,
      (∃ missing target, c = ConsensusMempoolMessage.Synchronize missing target) ∨
      ∃ r, c = ConsensusMempoolMessage.Cleanup r) ∧
    (∀ missing target r,
      ConsensusMempoolMessage.Synchronize missing target ≠
        ConsensusMempoolMessage.Cleanup r) ∧
    (∀ r : Round, (r : Nat) < 2 ^ 64) := by
  refine ⟨?_, ?_, ?_, ?_, fun r => r.isLt⟩
  · intro m
    cases m with
    | Batch b => exact Or.inl ⟨b, rfl⟩
    | BatchRequest missing origin => exact Or.inr ⟨missing, origin, rfl⟩
  · intro b missing origin
    simp
  · intro c
    cases c with
    | Synchronize missing target => exact Or.inl ⟨missing, target, rfl⟩
    | Cleanup r => exact Or.inr ⟨r, rfl⟩
  · intro missing target r
    simp

/-- Witness for mempool_message_shape at a concrete message. -/
theorem mempool_message_shape_witness :
    (∃ b, MempoolMessage.Batch [] = MempoolMessage.Batch b) ∨
      ∃ missing origin,
        MempoolMessage.Batch [] = MempoolMessage.BatchRequest missing origin :=
  mempool_message_shape.1 (MempoolMessage.Batch [])

/-- Claim C9: require(status, msg) returns normally exactly when status is
true, and the panic it raises when status is false carries exactly msg. -/
theorem require_ok_iff (msg : String) :
    require true msg = Except.ok () ∧
    require false msg = Except.error msg ∧
    ∀ status, (require status msg = Except.ok () ↔ status = true) := by
  refine ⟨rfl, rfl, ?_⟩
  intro status
  cases status <;> simp [require]

/-- Witness for require_ok_iff at a concrete message. -/
theorem require_ok_iff_witness : require true "boom" = Except.ok () :=
  (require_ok_iff "boom").1

/-- Claim C10: the conversion from Errors<BlockError> yields Irrecoverable
exactly when some contained error is
FallbackError::RequestFailed(BlockError::Irrecoverable(_)), and yields
Recoverable otherwise. -/
theorem blockerror_from_errors_spec (e : Errors BlockError) :
    ((∃ s, BlockError.fromErrors e = BlockError.Irrecoverable s) ↔
      ∃ p ∈ e.pairs, ∃ msg,
        p.2 = FallbackError.RequestFailed (BlockError.Irrecoverable msg)) ∧
    ((∃ p ∈ e.pairs, ∃ msg,
        p.2 = FallbackError.RequestFailed (BlockError.Irrecoverable msg)) →
      BlockError.fromErrors e = BlockError.Irrecoverable e.render) ∧
    ((¬ ∃ p ∈ e.pairs, ∃ msg,
        p.2 = FallbackError.RequestFailed (BlockError.Irrecoverable msg)) →
      BlockError.fromErrors e = BlockError.Recoverable e.render) := by
  have hany : e.pairs.any isIrrecoverableFallback = true ↔
      ∃ p ∈ e.pairs, ∃ msg,
        p.2 = FallbackError.RequestFailed (BlockError.Irrecoverable msg) := by
    rw [List.any_eq_true]
    constructor
    · rintro ⟨p, hp, hmatch⟩
      exact ⟨p, hp, (isIrrecoverableFallback_eq_true p).1 hmatch⟩
    · rintro ⟨p, hp, msg, hmsg⟩
      exact ⟨p, hp, (isIrrecoverableFallback_eq_true p).2 ⟨msg, hmsg⟩⟩
  by_cases h : e.pairs.any isIrrecoverableFallback = true
  · have hfrom : BlockError.fromErrors e = BlockError.Irrecoverable e.render := by
      simp [BlockError.fromErrors, h]
    refine ⟨⟨fun _ => hany.1 h, fun _ => ⟨e.render, hfrom⟩⟩, fun _ => hfrom, ?_⟩
    intro hno
    exact absurd (hany.1 h) hno
  · have hfrom : BlockError.fromErrors e = BlockError.Recoverable e.render := by
      simp [BlockError.fromErrors, h]
    refine ⟨⟨?_, ?_⟩, ?_, fun _ => hfrom⟩
    · rintro ⟨s, hs⟩
      rw [hfrom] at hs
      cases hs
    · intro hex
      exact absurd (hany.2 hex) h
    · intro hex
      exact absurd (hany.2 hex) h

/-- Witness for blockerror_from_errors_spec at the empty error collection. -/
theorem blockerror_from_errors_spec_witness :
    BlockError.fromErrors { pairs := [] } =
      BlockError.Recoverable (Errors.render { pairs := [] }) :=
  (blockerror_from_errors_spec { pairs := [] }).2.2 (by simp)
